import Mathlib

/-!
Verification of the Pipeline Readiness Synchronization Engine of the
agent-frontend repository, shallowly embedded in Lean 4.

The embedding follows the source files:
* `src/hooks/usePaginatedFetch.ts` — the paginated-fetch hook (first section of
  the file) and the `Pipeline` component (second section of the file): status
  loading, job loading, the one-shot verification-refresh guard, the debounced
  refresh scheduler, the per-stage status computation and the guarded action
  dispatchers `handleVerify` / `handleDraft` / `handleSend` / `handleScrape`.
* `src/unnamed/part_001` — the `SocialPipeline` component: the social-profile
  variant of the stage gating and its rendering predicate `isCompleted`.

JavaScript numbers holding the pipeline counts are modelled as `Int`; the
status payloads are small records of such counts.  Fallible remote calls are
modelled as `Except String` results fed to the state-transition functions that
mirror the `try/catch` bodies of the source.
-/

set_option autoImplicit false

namespace AgentFrontend

/-! ### Data model -/

/-- Canonical normalized pipeline status, mirroring the
`NormalizedPipelineStatus` record consumed by the `Pipeline` component
(fields read by the component: `discovered`, `scrape_ready_count`, `scraped`,
`emails_found`, `emails_verified`, `leads`, `drafting_ready_count`, `drafted`,
`send_ready_count`, `sent`, `followup_ready`), plus the `activity` flag and
optional `reason` described in section 3 of the specification. -/
structure NormalizedStatus where
  discovered : Int := 0
  scrape_ready_count : Int := 0
  scraped : Int := 0
  emails_found : Int := 0
  emails_verified : Int := 0
  leads : Int := 0
  drafting_ready_count : Int := 0
  drafted : Int := 0
  send_ready_count : Int := 0
  sent : Int := 0
  followup_ready : Int := 0
  activity : Bool := false
  reason : Option String := none
  deriving DecidableEq, Repr

/-- Raw (possibly partial) status payload from the backend: every numeric
field may be absent.  `none` models a missing / null field. -/
structure RawStatus where
  discovered : Option Int := none
  scrape_ready_count : Option Int := none
  scraped : Option Int := none
  emails_found : Option Int := none
  emails_verified : Option Int := none
  leads : Option Int := none
  drafting_ready_count : Option Int := none
  drafted : Option Int := none
  send_ready_count : Option Int := none
  sent : Option Int := none
  followup_ready : Option Int := none
  deriving DecidableEq, Repr

/-- Coerce one raw numeric field: 0 for a missing value, clamped to be
non-negative. -/
def normField (x : Option Int) : Int := max 0 (x.getD 0)

/-- Modelled from the spec: `normalizePipelineStatus` lives in `lib/api`,
which is not among the provided sources (components import it from
`@/lib/api`).  Section 4.1 of the specification: every recognized numeric
field is coerced to an integer that is at least 0, with 0 substituted for a
missing value; absent input (the `null` argument used by the error branches)
yields the all-zero inactive default snapshot. -/
def normalizePipelineStatus (raw : Option RawStatus) : NormalizedStatus :=
  match raw with
  | none => {}
  | some r =>
    { discovered := normField r.discovered
      scrape_ready_count := normField r.scrape_ready_count
      scraped := normField r.scraped
      emails_found := normField r.emails_found
      emails_verified := normField r.emails_verified
      leads := normField r.leads
      drafting_ready_count := normField r.drafting_ready_count
      drafted := normField r.drafted
      send_ready_count := normField r.send_ready_count
      sent := normField r.sent
      followup_ready := normField r.followup_ready
      activity := true
      reason := none }

/-- Background job record, mirroring the `Job` fields the `Pipeline`
component reads: `id`, `job_type`, `status`, `created_at`. -/
structure Job where
  id : Nat := 0
  job_type : String := ""
  status : String := ""
  created_at : Int := 0
  deriving DecidableEq, Repr

/-! ### Readiness derivation -/

/-- Verify-ready count, as computed (inline, with the same formula) in
`handleVerify` and in the verification step card of the `Pipeline` component:
`normalizedStatus.scraped > 0 ? Math.max(0, emails_found - emails_verified) : 0`. -/
def verifyReadyCount (s : NormalizedStatus) : Int :=
  if 0 < s.scraped then max 0 (s.emails_found - s.emails_verified) else 0

/-! ### Stage gate machine -/

/-- Step card status values of the `StepCard` interface. -/
inductive StepStatus where
  | pending
  | active
  | completed
  | locked
  deriving DecidableEq, Repr

/-- Mirrors `latestVerificationJob?.status === 'running' ||
latestVerificationJob?.status === 'pending'` on an optional latest job. -/
def jobRunningOrPending (job : Option Job) : Bool :=
  match job with
  | some j => j.status == "running" || j.status == "pending"
  | none => false

/-- Step 1 (discovery) status: `discovered > 0 ? 'completed' : 'active'`. -/
def discoveryStepStatus (s : NormalizedStatus) : StepStatus :=
  if 0 < s.discovered then .completed else .active

/-- Step 2 (scraping) status:
`scrape_ready_count === 0 ? 'locked' : scraped > 0 ? 'completed' : 'active'`. -/
def scrapingStepStatus (s : NormalizedStatus) : StepStatus :=
  if s.scrape_ready_count = 0 then .locked
  else if 0 < s.scraped then .completed
  else .active

/-- Step 3 (verification) status, from the immediately invoked function in
the step card: a running or pending latest verification job gives `active`;
otherwise `verifyReady === 0` gives `locked`; otherwise
`emails_verified > 0` gives `completed`; otherwise `active`. -/
def verificationStepStatus (s : NormalizedStatus) (job : Option Job) : StepStatus :=
  if jobRunningOrPending job then .active
  else if verifyReadyCount s = 0 then .locked
  else if 0 < s.emails_verified then .completed
  else .active

/-- Step 4 (drafting) status:
`drafting_ready_count === 0 ? 'locked' : (drafted > 0 ? 'completed' : 'active')`. -/
def draftingStepStatus (s : NormalizedStatus) : StepStatus :=
  if s.drafting_ready_count = 0 then .locked
  else if 0 < s.drafted then .completed
  else .active

/-- Step 5 (sending) status:
`(drafted > 0 || send_ready_count > 0) ? (sent > 0 ? 'completed' : 'active') : 'locked'`. -/
def sendingStepStatus (s : NormalizedStatus) : StepStatus :=
  if 0 < s.drafted ∨ 0 < s.send_ready_count then
    (if 0 < s.sent then .completed else .active)
  else .locked

/-! ### Guarded action dispatchers -/

/-- Observable outcome of invoking a stage action: a locally authored
refusal message shown via `alert` with no network traffic, or a remote call
to the named pipeline endpoint. -/
inductive ActionResult where
  | refuse (msg : String)
  | remote (endpoint : String)
  deriving DecidableEq, Repr

/-- Dispatcher `handleVerify`: recomputes the verify-ready count from the
normalized status and refuses locally when it is 0; otherwise calls the
remote `pipelineVerify` endpoint. -/
def handleVerify (s : NormalizedStatus) : ActionResult :=
  if verifyReadyCount s = 0 then
    ActionResult.refuse
      ("No prospects ready for verification. Ensure prospects are scraped and have emails.")
  else ActionResult.remote ("pipelineVerify")

/-- Dispatcher `handleDraft`: refuses locally when
`drafting_ready_count === 0`; otherwise calls the remote `pipelineDraft`
endpoint. -/
def handleDraft (s : NormalizedStatus) : ActionResult :=
  if s.drafting_ready_count = 0 then
    ActionResult.refuse
      ("No prospects ready for drafting. Ensure prospects are verified and have emails.")
  else ActionResult.remote ("pipelineDraft")

/-- Dispatcher `handleSend`: refuses locally when `send_ready_count === 0`;
otherwise calls the remote `pipelineSend` endpoint. -/
def handleSend (s : NormalizedStatus) : ActionResult :=
  if s.send_ready_count = 0 then
    ActionResult.refuse
      ("No emails ready for sending. Ensure prospects have verified email, draft subject, and draft body.")
  else ActionResult.remote ("pipelineSend")

/-- Dispatcher `handleScrape`: the source body performs no readiness check
at all — it unconditionally awaits `pipelineScrape()`. -/
def handleScrape (_s : NormalizedStatus) : ActionResult :=
  ActionResult.remote ("pipelineScrape")

/-! ### Refresh scheduler (debounce)

`loadStatusDebounced` clears the pending `setTimeout` (if any) and schedules
a new one 300 time units after the call; a pending timer therefore fires only
when no further `loadStatusDebounced` call arrives before its deadline.
`debounceFetches` maps the ascending list of request times to the list of
times at which the timer callback (and hence the status fetch) actually
fires: the timer armed at request time `t` fires at `t + 300` unless the next
request arrives strictly before `t + 300` and cancels it; the last request of
the list always fires. -/

/-- Fetch times produced by a sequence of debounced refresh requests given in
ascending order of request time. -/
def debounceFetches : List Int → List Int
  | [] => []
  | [t] => [t + 300]
  | t :: u :: rest =>
    (if u < t + 300 then [] else [t + 300]) ++ debounceFetches (u :: rest)

/-! ### Job tracker one-shot guard

State machine for `loadVerificationJobs` and the
`hasTriggeredVerificationRefresh` ref.  Events are: a jobs poll returning a
job list (the body of `loadVerificationJobs` filters it to `verify` jobs,
stores the filtered list, and — when some job has status `completed` and the
guard flag is clear — sets the flag, schedules a delayed refresh and thereby
triggers one follow-up status refresh), and the firing of that scheduled
refresh (the `setTimeout` callback, which runs `loadStatus()` and clears the
flag). -/

/-- Events observed by the verification-job tracker. -/
inductive JobEvent where
  | jobsFetched (jobs : List Job)
  | refreshFire
  deriving DecidableEq, Repr

/-- State of the tracker: the stored filtered verification-job list, the
`hasTriggeredVerificationRefresh` flag, whether a delayed refresh is
currently scheduled, and a counter of follow-up refreshes triggered so far
(the count of `loadStatus` calls scheduled by the guard). -/
structure GuardState where
  verificationJobs : List Job := []
  flag : Bool := false
  pendingRefresh : Bool := false
  triggers : Nat := 0
  deriving DecidableEq, Repr

/-- One step of the tracker, from the body of `loadVerificationJobs` and of
its `setTimeout` callback. -/
def guardStep (st : GuardState) : JobEvent → GuardState
  | .jobsFetched jobs =>
    let vlist := jobs.filter (fun j => j.job_type == "verify")
    let completedJobs := vlist.filter (fun j => j.status == "completed")
    if 0 < completedJobs.length ∧ st.flag = false then
      { st with
          verificationJobs := vlist
          flag := true
          pendingRefresh := true
          triggers := st.triggers + 1 }
    else { st with verificationJobs := vlist }
  | .refreshFire =>
    if st.pendingRefresh then { st with flag := false, pendingRefresh := false }
    else st

/-- Run the tracker over a list of events. -/
def runGuard (st : GuardState) (evs : List JobEvent) : GuardState :=
  evs.foldl guardStep st

/-! ### Fetch application (loadStatus / loadDiscoveryJobs)

State visible to the `Pipeline` component, and the transitions performed by
the resolution of a status fetch (`loadStatus`) or of a discovery-job fetch
(`loadDiscoveryJobs`).  A fetch result is `Except.ok payload` on success and
`Except.error message` on a network / transport error (the `catch` branch).
The source of `loadStatus` never consults the `AbortController` created by
`loadStatusDebounced` (the controller is aborted and re-created there, but
its signal is not passed to `pipelineStatus()`), so every resolution applies
its `setStatus` unconditionally, in arrival order. -/

/-- Component state touched by the two loaders: the visible status snapshot
(`useState`, initially `null`), the stored discovery-job list and the console
error log. -/
structure PipelineState where
  visibleStatus : Option NormalizedStatus := none
  discoveryJobs : List Job := []
  log : List String := []
  deriving DecidableEq, Repr

/-- Resolution of one status fetch, from `loadStatus`: on success the raw
payload is normalized and stored; on error the failure is logged and the
default normalized snapshot (from a `null` raw status) is stored. -/
def applyStatusFetch (st : PipelineState) (result : Except String RawStatus) :
    PipelineState :=
  match result with
  | .ok raw => { st with visibleStatus := some (normalizePipelineStatus (some raw)) }
  | .error e =>
    { st with
        log := st.log ++ ["Failed to load pipeline status: " ++ e]
        visibleStatus := some (normalizePipelineStatus none) }

/-- Resolution of one discovery-jobs fetch, from `loadDiscoveryJobs`: on
success the list is filtered to `discover` jobs and stored; on error the
failure is only logged. -/
def applyDiscoveryJobsFetch (st : PipelineState)
    (result : Except String (List Job)) : PipelineState :=
  match result with
  | .ok jobs => { st with discoveryJobs := jobs.filter (fun j => j.job_type == "discover") }
  | .error e => { st with log := st.log ++ ["Failed to load discovery jobs: " ++ e] }

/-- Apply a sequence of status-fetch resolutions in the order they arrive. -/
def runStatusFetches (st : PipelineState) (results : List (Except String RawStatus)) :
    PipelineState :=
  results.foldl applyStatusFetch st

/-! ### Paginated fetch fallbacks (usePaginatedFetch.loadData)

`loadData` reads `response.data || response.prospects || response.items || []`
and `response.totalPages || response.total_pages || 0` and
`response.total || 0`.  JavaScript `||` takes the left operand when it is
truthy: a present array (even an empty one) is truthy, a missing / null field
is falsy, and a number is truthy exactly when it is nonzero. -/

/-- Raw paginated response with every alternate spelling optional. -/
structure RawPaginated (α : Type) where
  data : Option (List α) := none
  prospects : Option (List α) := none
  items : Option (List α) := none
  totalPages : Option Int := none
  total_pages : Option Int := none
  total : Option Int := none
  deriving DecidableEq, Repr

/-- JavaScript `a || b` where `a` is an optional array field: any present
array is truthy. -/
def jsOrList {α : Type} (a : Option (List α)) (b : List α) : List α :=
  match a with
  | some l => l
  | none => b

/-- JavaScript `a || b` where `a` is an optional numeric field: a present
nonzero number is truthy, `0` and a missing value are falsy. -/
def jsOrNum (a : Option Int) (b : Int) : Int :=
  match a with
  | some x => if x = 0 then b else x
  | none => b

/-- Item list chosen by `loadData`. -/
def loadDataItems {α : Type} (r : RawPaginated α) : List α :=
  jsOrList r.data (jsOrList r.prospects (jsOrList r.items []))

/-- Page count chosen by `loadData`. -/
def loadDataTotalPages {α : Type} (r : RawPaginated α) : Int :=
  jsOrNum r.totalPages (jsOrNum r.total_pages 0)

/-- Total count chosen by `loadData`. -/
def loadDataTotal {α : Type} (r : RawPaginated α) : Int :=
  jsOrNum r.total 0

/-! ### Social pipeline variant (src/unnamed/part_001) -/

/-- Status payload of the social-profile pipeline. -/
structure SocialPipelineStatus where
  discovered : Int := 0
  reviewed : Int := 0
  qualified : Int := 0
  drafted : Int := 0
  sent : Int := 0
  followup_ready : Int := 0
  status : String := "active"
  reason : Option String := none
  deriving DecidableEq, Repr

/-- The five social step cards, as (status, displayed count) pairs, in the
order of the `steps` array of `SocialPipeline`. -/
def socialSteps (st : SocialPipelineStatus) : List (StepStatus × Int) :=
  [ (StepStatus.active, st.discovered),
    (if 0 < st.discovered then StepStatus.active else StepStatus.locked, st.qualified),
    (if 0 < st.qualified then StepStatus.active else StepStatus.locked, st.drafted),
    (if 0 < st.drafted then StepStatus.active else StepStatus.locked, st.sent),
    (if 0 < st.sent then StepStatus.active else StepStatus.locked, st.followup_ready) ]

/-- Rendering predicate of `SocialPipeline`:
`isCompleted = step.status === 'completed' || (step.count > 0 && step.status === 'active')`. -/
def socialIsCompleted (p : StepStatus × Int) : Bool :=
  decide (p.1 = StepStatus.completed) || (decide (0 < p.2) && decide (p.1 = StepStatus.active))

/-! ### Concrete inputs used by counterexamples, bug evaluations and witnesses -/

/-- RawStatus of end-to-end scenario 2 of the specification. -/
def scenarioTwo : NormalizedStatus :=
  { scraped := 10, emails_found := 7, emails_verified := 7, activity := true }

/-- Older status payload (fetch A of the supersession scenario). -/
def rawSnapshotA : RawStatus := { scraped := some 10, emails_found := some 7 }

/-- Newer status payload (fetch B of the supersession scenario). -/
def rawSnapshotB : RawStatus :=
  { scraped := some 12, emails_found := some 9, emails_verified := some 7 }

/-- Component state displaying a non-default snapshot. -/
def staleState : PipelineState :=
  { visibleStatus := some (normalizePipelineStatus (some rawSnapshotA)) }

/-- Paginated response with a present-but-zero `totalPages` next to a legacy
`total_pages`. -/
def rawPageNine : RawPaginated Int :=
  { data := some [], totalPages := some 0, total_pages := some 5 }

/-- Completed verification job. -/
def completedVerifyJob : Job :=
  { id := 1, job_type := "verify", status := "completed", created_at := 5 }

/-- Social pipeline status with five discovered profiles. -/
def socialSample : SocialPipelineStatus := { discovered := 5 }

/-! ## Theorems -/

/-- Claim C4: for every NormalizedStatus, the derived verify-ready count
equals `max 0 (emails_found - emails_verified)` when `scraped > 0` and equals
0 when `scraped = 0`; it is never negative, and it is monotonically
non-increasing as `emails_verified` increases with `emails_found` (and
`scraped`) held fixed. -/
theorem verifyReadyDerivation (s : NormalizedStatus) :
    (0 < s.scraped → verifyReadyCount s = max 0 (s.emails_found - s.emails_verified))
    ∧ (s.scraped = 0 → verifyReadyCount s = 0)
    ∧ 0 ≤ verifyReadyCount s
    ∧ (∀ t : NormalizedStatus, t.emails_found = s.emails_found →
        t.scraped = s.scraped → s.emails_verified ≤ t.emails_verified →
        verifyReadyCount t ≤ verifyReadyCount s) := by
  refine ⟨?_, ?_, ?_, ?_⟩
  · intro h
    simp [verifyReadyCount, h]
  · intro h
    simp [verifyReadyCount, h]
  · unfold verifyReadyCount
    split
    · exact le_max_left 0 _
    · exact le_refl 0
  · intro t hf hsc hv
    unfold verifyReadyCount
    rw [hf, hsc]
    split
    · exact max_le_max le_rfl (by omega)
    · exact le_refl 0

/-- Claim C4 witness: scenario 2 values (`scraped = 10`, `emails_found = 7`,
`emails_verified = 7`) have `scraped > 0` and verify-ready count
`max 0 (7 - 7) = 0`, and increasing `emails_verified` does not increase it. -/
theorem verifyReadyDerivationWitness :
    verifyReadyCount scenarioTwo = max 0 ((7 : Int) - 7)
    ∧ verifyReadyCount { scenarioTwo with emails_verified := 9 }
        ≤ verifyReadyCount scenarioTwo := by
  constructor
  · exact (verifyReadyDerivation scenarioTwo).1 (by decide)
  · exact (verifyReadyDerivation scenarioTwo).2.2.2
      { scenarioTwo with emails_verified := 9 } rfl rfl (by decide)

/-- Claim C5: the draft-ready and send-ready gating counts are the
collaborator-supplied fields taken verbatim: `handleDraft` refuses exactly
when `drafting_ready_count = 0` and `handleSend` exactly when
`send_ready_count = 0`, and each dispatcher depends on no other field of the
status (two statuses agreeing on the one count get the same outcome). -/
theorem readyCountsTrustedVerbatim (s : NormalizedStatus) :
    ((∃ m, handleDraft s = ActionResult.refuse m) ↔ s.drafting_ready_count = 0)
    ∧ ((∃ m, handleSend s = ActionResult.refuse m) ↔ s.send_ready_count = 0)
    ∧ (∀ t : NormalizedStatus,
        s.drafting_ready_count = t.drafting_ready_count → handleDraft s = handleDraft t)
    ∧ (∀ t : NormalizedStatus,
        s.send_ready_count = t.send_ready_count → handleSend s = handleSend t) := by
  refine ⟨?_, ?_, ?_, ?_⟩
  · by_cases h : s.drafting_ready_count = 0 <;> simp [handleDraft, h]
  · by_cases h : s.send_ready_count = 0 <;> simp [handleSend, h]
  · intro t h
    simp only [handleDraft, h]
  · intro t h
    simp only [handleSend, h]

/-- Claim C5 witness: at scenario 2 (all ready counts zero but
`emails_verified = 7`), drafting is refused, and a status differing from the
all-zero one only in `emails_verified` and `drafted` gets the same drafting
outcome. -/
theorem readyCountsTrustedVerbatimWitness :
    (∃ m, handleDraft scenarioTwo = ActionResult.refuse m)
    ∧ handleDraft scenarioTwo
        = handleDraft { emails_verified := 7, drafted := 3 } := by
  constructor
  · exact (readyCountsTrustedVerbatim scenarioTwo).1.mpr rfl
  · exact (readyCountsTrustedVerbatim scenarioTwo).2.2.1
      { emails_verified := 7, drafted := 3 } rfl

/-- Claim C7 counterexample: the scraping stage action `handleScrape` issues
the remote `pipelineScrape` call even on the all-zero status, whose
scrape-readiness count is 0 — so it is not the case that every stage action
refuses locally without network traffic when its readiness count is 0. -/
theorem scrapeActionUnguarded :
    NormalizedStatus.scrape_ready_count {} = 0
    ∧ handleScrape {} = ActionResult.remote ("pipelineScrape") := by
  exact ⟨rfl, rfl⟩

/-- Claim C7 (amended): for the verification, drafting and sending stages,
the dispatcher refuses locally (issuing no remote call) exactly when the
stage readiness count is 0, and issues the remote endpoint call exactly when
it is nonzero; the scraping dispatcher performs no such local re-check. -/
theorem guardedDispatchVerifyDraftSend (s : NormalizedStatus) :
    ((∃ m, handleVerify s = ActionResult.refuse m) ↔ verifyReadyCount s = 0)
    ∧ (handleVerify s = ActionResult.remote ("pipelineVerify") ↔ verifyReadyCount s ≠ 0)
    ∧ ((∃ m, handleDraft s = ActionResult.refuse m) ↔ s.drafting_ready_count = 0)
    ∧ (handleDraft s = ActionResult.remote ("pipelineDraft") ↔ s.drafting_ready_count ≠ 0)
    ∧ ((∃ m, handleSend s = ActionResult.refuse m) ↔ s.send_ready_count = 0)
    ∧ (handleSend s = ActionResult.remote ("pipelineSend") ↔ s.send_ready_count ≠ 0) := by
  refine ⟨?_, ?_, ?_, ?_, ?_, ?_⟩
  · by_cases h : verifyReadyCount s = 0 <;> simp [handleVerify, h]
  · by_cases h : verifyReadyCount s = 0 <;> simp [handleVerify, h]
  · by_cases h : s.drafting_ready_count = 0 <;> simp [handleDraft, h]
  · by_cases h : s.drafting_ready_count = 0 <;> simp [handleDraft, h]
  · by_cases h : s.send_ready_count = 0 <;> simp [handleSend, h]
  · by_cases h : s.send_ready_count = 0 <;> simp [handleSend, h]

/-- Claim C1 counterexample: at the scenario-2 status (`scraped = 10`,
`emails_found = 7`, `emails_verified = 7`) with no verification job, the code
computes the verification stage status as `locked`, not the `completed`
demanded by the rule table; and with `sent = 3` but `drafted = 0` and
`send_ready_count = 0` the sending stage is `locked`, not `completed`. -/
theorem verificationScenarioTwoIsLocked :
    verificationStepStatus scenarioTwo none = StepStatus.locked
    ∧ StepStatus.locked ≠ StepStatus.completed
    ∧ sendingStepStatus { sent := 3 } = StepStatus.locked := by
  decide

/-- Claim C1 (amended): the stage gate machine computes stage statuses with
the locked check taking priority over the completed check (and a
running/pending verification job taking priority over both): discovery is
completed iff `discovered > 0` and active otherwise; scraping is locked iff
`scrape_ready_count = 0`, completed iff additionally `scraped > 0` fails the
lock, active otherwise; verification is active iff a running/pending latest
job exists or (no such job, `verify_ready` nonzero and nothing verified),
locked iff no such job and `verify_ready = 0`, completed iff no such job,
`verify_ready` nonzero and `emails_verified > 0`; drafting is locked iff
`drafting_ready_count = 0`, completed iff additionally `drafted > 0`;
sending is locked iff `drafted = 0` and `send_ready_count = 0` (even when
`sent > 0`), completed iff unlocked and `sent > 0`, active otherwise. -/
theorem stageGateStatusTable (s : NormalizedStatus) (j : Option Job) :
    (discoveryStepStatus s = StepStatus.completed ↔ 0 < s.discovered)
    ∧ (discoveryStepStatus s = StepStatus.active ↔ s.discovered ≤ 0)
    ∧ (scrapingStepStatus s = StepStatus.locked ↔ s.scrape_ready_count = 0)
    ∧ (scrapingStepStatus s = StepStatus.completed ↔
        s.scrape_ready_count ≠ 0 ∧ 0 < s.scraped)
    ∧ (scrapingStepStatus s = StepStatus.active ↔
        s.scrape_ready_count ≠ 0 ∧ s.scraped ≤ 0)
    ∧ (verificationStepStatus s j = StepStatus.active ↔
        (jobRunningOrPending j = true ∨
          (jobRunningOrPending j = false ∧ verifyReadyCount s ≠ 0 ∧ s.emails_verified ≤ 0)))
    ∧ (verificationStepStatus s j = StepStatus.locked ↔
        (jobRunningOrPending j = false ∧ verifyReadyCount s = 0))
    ∧ (verificationStepStatus s j = StepStatus.completed ↔
        (jobRunningOrPending j = false ∧ verifyReadyCount s ≠ 0 ∧ 0 < s.emails_verified))
    ∧ (draftingStepStatus s = StepStatus.locked ↔ s.drafting_ready_count = 0)
    ∧ (draftingStepStatus s = StepStatus.completed ↔
        s.drafting_ready_count ≠ 0 ∧ 0 < s.drafted)
    ∧ (draftingStepStatus s = StepStatus.active ↔
        s.drafting_ready_count ≠ 0 ∧ s.drafted ≤ 0)
    ∧ (sendingStepStatus s = StepStatus.locked ↔ s.drafted ≤ 0 ∧ s.send_ready_count ≤ 0)
    ∧ (sendingStepStatus s = StepStatus.completed ↔
        (0 < s.drafted ∨ 0 < s.send_ready_count) ∧ 0 < s.sent)
    ∧ (sendingStepStatus s = StepStatus.active ↔
        (0 < s.drafted ∨ 0 < s.send_ready_count) ∧ s.sent ≤ 0) := by
  refine ⟨?_, ?_, ?_, ?_, ?_, ?_, ?_, ?_, ?_, ?_, ?_, ?_, ?_, ?_⟩ <;>
    simp only [discoveryStepStatus, scrapingStepStatus, verificationStepStatus,
      draftingStepStatus, sendingStepStatus] <;>
    split_ifs <;> simp_all <;> omega

/-- Claim C9 counterexample: in the response `rawPageNine` the first
spelling `totalPages` is present with value 0, yet `loadData` yields 5 (the
legacy `total_pages` value), so a present first-recognized spelling does not
always win. -/
theorem totalPagesZeroFallsThrough :
    rawPageNine.totalPages = some 0
    ∧ loadDataTotalPages rawPageNine = 5
    ∧ (5 : Int) ≠ 0 := by
  decide

/-- Claim C9 (amended): the fallback chains use JavaScript truthiness,
first-truthy-wins: for the item list any present array (empty included) wins
in the order data, prospects, items, with `[]` when all are missing; for the
page count the first present and nonzero spelling wins in the order
totalPages, total_pages, with 0 when both spellings are missing or zero. -/
theorem fallbackFirstTruthyWins :
    (∀ (r : RawPaginated Int) (l : List Int),
        (r.data = some l → loadDataItems r = l)
        ∧ (r.data = none → r.prospects = some l → loadDataItems r = l)
        ∧ (r.data = none → r.prospects = none → r.items = some l → loadDataItems r = l)
        ∧ (r.data = none → r.prospects = none → r.items = none → loadDataItems r = []))
    ∧ (∀ (r : RawPaginated Int) (x : Int),
        (r.totalPages = some x → x ≠ 0 → loadDataTotalPages r = x)
        ∧ ((r.totalPages = none ∨ r.totalPages = some 0) →
            r.total_pages = some x → x ≠ 0 → loadDataTotalPages r = x)
        ∧ ((r.totalPages = none ∨ r.totalPages = some 0) →
            (r.total_pages = none ∨ r.total_pages = some 0) →
            loadDataTotalPages r = 0)) := by
  constructor
  · intro r l
    refine ⟨?_, ?_, ?_, ?_⟩
    · intro h
      simp [loadDataItems, jsOrList, h]
    · intro h h2
      simp [loadDataItems, jsOrList, h, h2]
    · intro h h2 h3
      simp [loadDataItems, jsOrList, h, h2, h3]
    · intro h h2 h3
      simp [loadDataItems, jsOrList, h, h2, h3]
  · intro r x
    refine ⟨?_, ?_, ?_⟩
    · intro h hx
      simp [loadDataTotalPages, jsOrNum, h, hx]
    · intro h h2 hx
      rcases h with h | h <;> simp [loadDataTotalPages, jsOrNum, h, h2, hx]
    · intro h h2
      rcases h with h | h <;> rcases h2 with h2 | h2 <;>
        simp [loadDataTotalPages, jsOrNum, h, h2]

/-- Claim C9 witness: concrete applications of the amended fallback rules —
a present `data` array wins for the items, a zero `totalPages` next to
`total_pages = 5` yields 5, and both spellings zero or missing yield 0. -/
theorem fallbackFirstTruthyWinsWitness :
    loadDataItems rawPageNine = ([] : List Int)
    ∧ loadDataTotalPages rawPageNine = 5
    ∧ loadDataTotalPages ({ } : RawPaginated Int) = 0 := by
  refine ⟨?_, ?_, ?_⟩
  · exact (fallbackFirstTruthyWins.1 rawPageNine []).1 rfl
  · exact (fallbackFirstTruthyWins.2 rawPageNine 5).2.1 (Or.inr rfl) rfl (by decide)
  · exact (fallbackFirstTruthyWins.2 ({ } : RawPaginated Int) 0).2.2
      (Or.inl rfl) (Or.inl rfl)

/-- Claim C8 counterexample: a network error on the discovery-jobs fetch
leaves the previously displayed (stale) snapshot in place — the visible
status is not replaced by the inactive all-zero default snapshot. -/
theorem jobsFetchErrorLeavesStaleStatus :
    (applyDiscoveryJobsFetch staleState (Except.error ("network down"))).visibleStatus
      = some (normalizePipelineStatus (some rawSnapshotA))
    ∧ normalizePipelineStatus (some rawSnapshotA) ≠ normalizePipelineStatus none := by
  decide

/-- Claim C8 (amended): a network error on a status fetch is logged and
replaces the visible status with the inactive default snapshot, regardless of
the previous state; a network error on a discovery-jobs fetch is only logged,
leaving both the visible status and the stored job list unchanged. -/
theorem fetchErrorHandling (st : PipelineState) (e : String) :
    (applyStatusFetch st (Except.error e)).visibleStatus
      = some (normalizePipelineStatus none)
    ∧ (applyStatusFetch st (Except.error e)).log
      = st.log ++ ["Failed to load pipeline status: " ++ e]
    ∧ (applyDiscoveryJobsFetch st (Except.error e)).visibleStatus = st.visibleStatus
    ∧ (applyDiscoveryJobsFetch st (Except.error e)).discoveryJobs = st.discoveryJobs
    ∧ (applyDiscoveryJobsFetch st (Except.error e)).log
      = st.log ++ ["Failed to load discovery jobs: " ++ e] := by
  exact ⟨rfl, rfl, rfl, rfl, rfl⟩

/-- Claim C2: the supersession scenario evaluated on the code — fetch B
resolves first, then the superseded fetch A resolves; because `loadStatus`
never consults the abort signal, the stale A result is applied last and
becomes the final visible snapshot, which differs from the B snapshot the
specification requires. -/
theorem statusFetchLastArrivalWins :
    (runStatusFetches { } [Except.ok rawSnapshotB, Except.ok rawSnapshotA]).visibleStatus
      = some (normalizePipelineStatus (some rawSnapshotA))
    ∧ normalizePipelineStatus (some rawSnapshotA)
      ≠ normalizePipelineStatus (some rawSnapshotB) := by
  decide

/-- Claim C10: in the social pipeline every computed step status is active
or locked (never completed), the discovery step is always active, and a step
renders as completed exactly when its status is active and its displayed
count is positive. -/
theorem socialStepsNeverCompleted (st : SocialPipelineStatus) :
    (∀ p ∈ socialSteps st,
      (p.1 = StepStatus.active ∨ p.1 = StepStatus.locked)
      ∧ (socialIsCompleted p = true ↔ (p.1 = StepStatus.active ∧ 0 < p.2)))
    ∧ (socialSteps st).head? = some (StepStatus.active, st.discovered) := by
  constructor
  · intro p hp
    simp only [socialSteps, List.mem_cons, List.not_mem_nil, or_false] at hp
    rcases hp with rfl | rfl | rfl | rfl | rfl <;>
      constructor <;>
      simp only [socialIsCompleted] <;>
      (try split_ifs) <;>
      simp_all
  · rfl

/-- Claim C10 witness: the first step card of the sample status (five
discovered profiles) is active, and it renders as completed exactly when its
count is positive. -/
theorem socialStepsNeverCompletedWitness :
    (StepStatus.active = StepStatus.active ∨ StepStatus.active = StepStatus.locked)
    ∧ (socialIsCompleted (StepStatus.active, (5 : Int)) = true ↔
        (StepStatus.active = StepStatus.active ∧ (0 : Int) < 5)) :=
  (socialStepsNeverCompleted socialSample).1 (StepStatus.active, 5) (by decide)

/-- Claim C3 counterexample: over the poll trace pending, running, completed,
refresh fired, completed — a single job completion — the guard triggers two
follow-up refreshes, not exactly one: after the scheduled refresh fires and
clears the flag, the next poll that still observes the completed job
re-triggers. -/
theorem guardRetriggersAfterRefresh :
    (runGuard { }
        [ JobEvent.jobsFetched [{ id := 1, job_type := "verify", status := "pending", created_at := 5 }],
          JobEvent.jobsFetched [{ id := 1, job_type := "verify", status := "running", created_at := 5 }],
          JobEvent.jobsFetched [completedVerifyJob],
          JobEvent.refreshFire,
          JobEvent.jobsFetched [completedVerifyJob] ]).triggers = 2
    ∧ (2 : Nat) ≠ 1 := by
  decide

/-- Claim C3 (amended): the guard fires at most one follow-up refresh per
arming window — while the flag is set and the scheduled refresh has not yet
fired, further polls trigger nothing and the flag stays set; and a poll that
observes a completed verification job while the flag is clear triggers
exactly one refresh and sets the flag.  After the refresh fires and clears
the flag, a poll still observing the completed job triggers again. -/
theorem guardOneShotPerWindow :
    (∀ (st : GuardState) (evs : List JobEvent),
        st.flag = true → (∀ e ∈ evs, e ≠ JobEvent.refreshFire) →
        (runGuard st evs).triggers = st.triggers ∧ (runGuard st evs).flag = true)
    ∧ (∀ (st : GuardState) (jobs : List Job),
        st.flag = false →
        0 < ((jobs.filter (fun j => j.job_type == "verify")).filter
              (fun j => j.status == "completed")).length →
        (guardStep st (JobEvent.jobsFetched jobs)).triggers = st.triggers + 1
        ∧ (guardStep st (JobEvent.jobsFetched jobs)).flag = true) := by
  constructor
  · intro st evs
    induction evs generalizing st with
    | nil =>
      intro hflag _
      exact ⟨rfl, hflag⟩
    | cons e evs ih =>
      intro hflag hno
      have hne : e ≠ JobEvent.refreshFire := hno e (List.mem_cons_self e evs)
      have hno2 : ∀ x ∈ evs, x ≠ JobEvent.refreshFire :=
        fun x hx => hno x (List.mem_cons_of_mem e hx)
      cases e with
      | refreshFire => exact absurd rfl hne
      | jobsFetched jobs =>
        have hstep : guardStep st (JobEvent.jobsFetched jobs)
            = { st with verificationJobs := jobs.filter (fun j => j.job_type == "verify") } := by
          simp only [guardStep]
          rw [if_neg]
          rintro ⟨-, hf⟩
          rw [hflag] at hf
          exact Bool.noConfusion hf
        simp only [runGuard, List.foldl_cons] at *
        rw [hstep]
        exact ih _ hflag hno2
  · intro st jobs hflag hlen
    simp only [guardStep]
    rw [if_pos ⟨hlen, hflag⟩]
    exact ⟨rfl, rfl⟩

/-- Claim C3 amended-theorem witness: with the flag already set, a further
poll that still sees the completed job leaves the trigger count at 1; with
the flag clear, such a poll increments it. -/
theorem guardOneShotPerWindowWitness :
    (runGuard { flag := true, pendingRefresh := true, triggers := 1 }
        [JobEvent.jobsFetched [completedVerifyJob]]).triggers = 1
    ∧ (guardStep { } (JobEvent.jobsFetched [completedVerifyJob])).triggers = 0 + 1 := by
  constructor
  · exact (guardOneShotPerWindow.1
      { flag := true, pendingRefresh := true, triggers := 1 }
      [JobEvent.jobsFetched [completedVerifyJob]] rfl (by decide)).1
  · exact (guardOneShotPerWindow.2 { } [completedVerifyJob] rfl (by decide)).1

/-- Helper for the burst case of the scheduler: if every consecutive request
arrives strictly inside the 300-unit window of the one before it, only the
last timer fires. -/
theorem debounceBurstAux (ts : List Int) :
    ∀ (t0 t : Int),
      List.Chain' (fun a b => b < a + 300) (t0 :: ts) →
      (t0 :: ts).getLast? = some t →
      debounceFetches (t0 :: ts) = [t + 300] := by
  induction ts with
  | nil =>
    intro t0 t _ hlast
    have ht : t0 = t := by
      simpa using hlast
    subst ht
    rfl
  | cons u rest ih =>
    intro t0 t hch hlast
    rw [List.chain'_cons] at hch
    obtain ⟨hlt, hch2⟩ := hch
    have hlast2 : (u :: rest).getLast? = some t := by
      rwa [List.getLast?_cons_cons] at hlast
    show (if u < t0 + 300 then ([] : List Int) else [t0 + 300])
        ++ debounceFetches (u :: rest) = [t + 300]
    rw [if_pos hlt, List.nil_append]
    exact ih u t hch2 hlast2

/-- Helper for the spaced case of the scheduler: if every consecutive request
arrives strictly after the 300-unit window of the one before it, every timer
fires. -/
theorem debounceSpacedAux (ts : List Int) :
    List.Chain' (fun a b => a + 300 < b) ts →
    debounceFetches ts = ts.map (fun t => t + 300) := by
  induction ts with
  | nil =>
    intro _
    rfl
  | cons t0 rest ih =>
    intro hch
    cases rest with
    | nil => rfl
    | cons u rest2 =>
      rw [List.chain'_cons] at hch
      obtain ⟨hlt, hch2⟩ := hch
      show (if u < t0 + 300 then ([] : List Int) else [t0 + 300])
          ++ debounceFetches (u :: rest2)
          = (t0 :: u :: rest2).map (fun t => t + 300)
      rw [if_neg (by omega), ih hch2]
      rfl

/-- Claim C6: for a nonempty burst of refresh requests each arriving within
300 units of the previous one, the scheduler issues exactly one fetch, 300
units after the last request of the burst; for requests each spaced more than
300 units apart, every request produces its own fetch 300 units later. -/
theorem debounceCoalescing :
    (∀ (ts : List Int) (t : Int), ts ≠ [] →
        List.Chain' (fun a b => b < a + 300) ts →
        ts.getLast? = some t →
        debounceFetches ts = [t + 300])
    ∧ (∀ ts : List Int,
        List.Chain' (fun a b => a + 300 < b) ts →
        debounceFetches ts = ts.map (fun t => t + 300)) := by
  constructor
  · intro ts t hne hch hlast
    cases ts with
    | nil => exact absurd rfl hne
    | cons t0 rest => exact debounceBurstAux rest t0 t hch hlast
  · exact debounceSpacedAux

/-- Claim C6 witness: scenario 3 — two requests 50 units apart produce one
fetch at 350 units; two requests 400 units apart produce two fetches. -/
theorem debounceCoalescingWitness :
    debounceFetches [0, 50] = [50 + 300]
    ∧ debounceFetches [0, 400] = [0, 400].map (fun t => t + 300) := by
  constructor
  · exact debounceCoalescing.1 [0, 50] 50 (by decide)
      (by norm_num [List.chain'_cons]) (by decide)
  · exact debounceCoalescing.2 [0, 400] (by norm_num [List.chain'_cons])

end AgentFrontend
